import Mathlib

/-!
Verification of the `miraibay` auction CLI (`miraibay_cli/commands/auction.py`).

The CLI has two commands, `bid` and `create`, which build a transaction through
the fluent builder of the SDK (`SuiTransaction`) and submit it with a fixed gas
budget.  We embed the builder as an explicit ordered list of operation
descriptors; a `move_call`/`split_coin` returns a handle (`Arg.result i`, or
`Arg.nestedResult i j` for a call destructured into several results) that later
operations reference.  Effectful inputs of a command run — the wall clock read
by `datetime.now`, the answer typed at the confirmation prompt, the active
address of the session — become explicit parameters of the command functions.
-/

/-- The fixed on-chain package address (`PACKAGE_ID` in the source). -/
def PACKAGE_ID : String :=
  "0x34d656894723daac48f3f825ae3b35c428e7b4cb5c65b08bb33349475a1e23ac"

/-- An argument of a transaction operation: a literal value (`ObjectID`,
`SuiString`, `SuiU64`) or a handle referencing the result of an earlier
operation in the same transaction. -/
inductive Arg where
  | objectID : String → Arg
  | suiString : String → Arg
  | suiU64 : Nat → Arg
  | result : Nat → Arg
  | nestedResult : Nat → Nat → Arg
deriving DecidableEq

/-- One operation of a transaction: a coin split off the gas coin
(`txer.split_coin(coin=txer.gas, ...)`), an entry-point call
(`txer.move_call(target, arguments, type_arguments)`), or an object transfer
(`txer.transfer_objects(transfers, recipient)`).  Bid amounts are Python
`int`s, hence `Int`. -/
inductive Op where
  | splitCoin : List Int → Op
  | moveCall : String → List Arg → List String → Op
  | transferObjects : List Arg → String → Op
deriving DecidableEq

/-- The fluent transaction builder: the ordered list of operations accumulated
so far. -/
structure SuiTransaction where
  ops : List Op
deriving DecidableEq

/-- A freshly constructed `SuiTransaction(client=client, ...)`: no operations yet. -/
def SuiTransaction.new : SuiTransaction := ⟨[]⟩

/-- `txer.split_coin(coin=txer.gas, amounts=...)`: appends the split and
returns a handle to its result. -/
def SuiTransaction.split_coin (tx : SuiTransaction) (amounts : List Int) :
    SuiTransaction × Arg :=
  (⟨tx.ops ++ [Op.splitCoin amounts]⟩, Arg.result tx.ops.length)

/-- `txer.move_call(target=..., arguments=..., type_arguments=...)` used as a
single-result call: appends the call and returns a handle to its result. -/
def SuiTransaction.move_call (tx : SuiTransaction) (target : String)
    (arguments : List Arg) (type_arguments : List String) :
    SuiTransaction × Arg :=
  (⟨tx.ops ++ [Op.moveCall target arguments type_arguments]⟩, Arg.result tx.ops.length)

/-- `a, b = txer.move_call(...)`: a call destructured into its two results,
returned as nested-result handles. -/
def SuiTransaction.move_call2 (tx : SuiTransaction) (target : String)
    (arguments : List Arg) (type_arguments : List String) :
    SuiTransaction × Arg × Arg :=
  (⟨tx.ops ++ [Op.moveCall target arguments type_arguments]⟩,
   Arg.nestedResult tx.ops.length 0, Arg.nestedResult tx.ops.length 1)

/-- `txer.transfer_objects(transfers=..., recipient=...)`. -/
def SuiTransaction.transfer_objects (tx : SuiTransaction) (transfers : List Arg)
    (recipient : String) : SuiTransaction :=
  ⟨tx.ops ++ [Op.transferObjects transfers recipient]⟩

/-- What `txer.execute(gas_budget=...)` submits: the accumulated operations and
the gas budget. -/
structure Submission where
  ops : List Op
  gasBudget : Nat
deriving DecidableEq

/-- The `bid` command.  `auction_id` and `amount` are the two positional CLI
arguments; the command builds the transaction unconditionally (the source has
no local check on `amount`) and submits it with gas budget `1_000_000_000`. -/
def bid (auction_id : String) (amount : Int) : Submission :=
  let txer := SuiTransaction.new
  let p := txer.split_coin [amount]
  let txer := p.1
  let payment := p.2
  let q := txer.move_call (PACKAGE_ID ++ "::auction::bid")
    [Arg.objectID auction_id, payment, Arg.objectID "0x6"] []
  let txer := q.1
  { ops := txer.ops, gasBudget := 1000000000 }

/-- Python truthiness of the `description` option (`Optional[str]`): `None` and
the empty string are falsy, every other string is truthy.  This is the test
`if description` on lines 76 and 77 of the source. -/
def descTruthy : Option String → Bool
  | none => false
  | some s => !s.isEmpty

/-- The `create` command.  CLI parameters in source order (timestamps and
prices are unsigned integers in the native units of the contract), followed by the
effectful inputs of the run: `now_ms` is `int(datetime.now(UTC).timestamp() * 1000)`
read at call time, `active_address` is `config.active_address`, and
`confirmAnswer` is the answer typed at the `typer.confirm` prompt.  The source
calls `typer.confirm` without `abort=True` and discards its return value, so
`confirmAnswer` is (faithfully) never consulted.  `typer.Exit(msg)` becomes
`Except.error msg` (a non-zero exit carrying the message, before any
transaction is built). -/
def create (name : String) (description : Option String)
    (start_ts end_ts reserve_price starting_price min_bid_increment : Nat)
    (now_ms : Nat) (active_address : String) (confirmAnswer : Bool) :
    Except String Submission :=
  let start_ts := if start_ts = 0 then now_ms else start_ts
  if start_ts > end_ts then
    Except.error "Start timestamp must be before end timestamp."
  else
    -- summary is printed, then `typer.confirm` runs; its Bool result is dropped
    let _ := confirmAnswer
    let txer := SuiTransaction.new
    let p := txer.move_call
      (if descTruthy description then "0x1::option::some" else "0x1::option::none")
      (if descTruthy description then [Arg.suiString (description.getD "")] else [])
      ["0x1::string::String"]
    let txer := p.1
    let description_opt := p.2
    let q := txer.move_call2 (PACKAGE_ID ++ "::auction::new")
      [Arg.suiString name, description_opt, Arg.suiU64 start_ts, Arg.suiU64 end_ts,
       Arg.suiU64 reserve_price, Arg.suiU64 starting_price, Arg.suiU64 min_bid_increment]
      []
    let txer := q.1
    let auction := q.2.1
    let auction_manager_cap := q.2.2
    let r := txer.move_call "0x2::transfer::public_share_object" [auction]
      [PACKAGE_ID ++ "::auction::Auction"]
    let txer := r.1
    let txer := txer.transfer_objects [auction_manager_cap] active_address
    Except.ok { ops := txer.ops, gasBudget := 1000000000 }

/-- The description-option operation `create` emits first (lines 75–79 of the
source): `0x1::option::some` carrying the text when the description is truthy,
`0x1::option::none` with no arguments otherwise. -/
def descOptionOp (description : Option String) : Op :=
  Op.moveCall
    (if descTruthy description then "0x1::option::some" else "0x1::option::none")
    (if descTruthy description then [Arg.suiString (description.getD "")] else [])
    ["0x1::string::String"]

/-- Precision of the default Python `decimal` context (28 significant digits). -/
def decimalContextPrec : Nat := 28

/-- Length of the base-10 representation of `n` (0 for `n = 0`), computed with
explicit fuel so that it is structurally recursive. -/
def digitCount : Nat → Nat → Nat
  | 0, _ => 0
  | fuel + 1, n => if n = 0 then 0 else digitCount fuel (n / 10) + 1

/-- Number of digits of the decimal coefficient of `Decimal(n)` for `n : Nat`
(`Decimal(0)` has the one-digit coefficient `0`). -/
def sigDigits (n : Nat) : Nat := max 1 (digitCount n n)

/-- Round `n / d` (for `d > 0`) to the nearest integer, ties to even —
`ROUND_HALF_EVEN`, the default `decimal` rounding mode. -/
def roundHalfEven (n d : Nat) : Nat :=
  let q := n / d
  let r := n % d
  if 2 * r < d then q
  else if d < 2 * r then q + 1
  else if q % 2 = 0 then q else q + 1

/-- Value of `Decimal(reserve_price) / 1_000_000_000` (line 68 of the source)
under the default Python decimal context: the exact quotient — always a finite
decimal here — correctly rounded to 28 significant digits, ties to even.
Rounding the value to 28 significant digits is rounding the coefficient `n`
at position `sigDigits n - 28` when `n` has more than 28 digits, and is exact
otherwise. -/
def reserveDisplaySui (reserve_price : Nat) : ℚ :=
  if sigDigits reserve_price ≤ decimalContextPrec then
    (reserve_price : ℚ) / 10 ^ 9
  else
    ((roundHalfEven reserve_price
        (10 ^ (sigDigits reserve_price - decimalContextPrec)) : ℚ) *
      10 ^ (sigDigits reserve_price - decimalContextPrec)) / 10 ^ 9

/-- Helper: when the effective start timestamp (after the zero substitution) is
at most `end_ts`, `create` reaches submission and its transaction is exactly
the four operations of the source, with gas budget `1_000_000_000`. -/
theorem create_ok_eq (name : String) (description : Option String)
    (start_ts end_ts reserve_price starting_price min_bid_increment now_ms : Nat)
    (active_address : String) (confirmAnswer : Bool)
    (h : (if start_ts = 0 then now_ms else start_ts) ≤ end_ts) :
    create name description start_ts end_ts reserve_price starting_price
        min_bid_increment now_ms active_address confirmAnswer =
      Except.ok ⟨[descOptionOp description,
        Op.moveCall (PACKAGE_ID ++ "::auction::new")
          [Arg.suiString name, Arg.result 0,
           Arg.suiU64 (if start_ts = 0 then now_ms else start_ts), Arg.suiU64 end_ts,
           Arg.suiU64 reserve_price, Arg.suiU64 starting_price,
           Arg.suiU64 min_bid_increment] [],
        Op.moveCall "0x2::transfer::public_share_object" [Arg.nestedResult 1 0]
          [PACKAGE_ID ++ "::auction::Auction"],
        Op.transferObjects [Arg.nestedResult 1 1] active_address], 1000000000⟩ := by
  unfold create descOptionOp
  rw [if_neg (not_lt.mpr h)]
  rfl

/-- Helper: when the effective start timestamp (after the zero substitution)
exceeds `end_ts`, `create` exits with the error message, before any
transaction is built. -/
theorem create_error_eq (name : String) (description : Option String)
    (start_ts end_ts reserve_price starting_price min_bid_increment now_ms : Nat)
    (active_address : String) (confirmAnswer : Bool)
    (h : end_ts < (if start_ts = 0 then now_ms else start_ts)) :
    create name description start_ts end_ts reserve_price starting_price
        min_bid_increment now_ms active_address confirmAnswer =
      Except.error "Start timestamp must be before end timestamp." := by
  unfold create
  rw [if_pos h]

/-- Helper: a number below `10 ^ k` has at most `k` base-10 digits, for any
amount of fuel. -/
theorem digitCount_le (fuel : Nat) : ∀ (k n : Nat), n < 10 ^ k → digitCount fuel n ≤ k := by
  induction fuel with
  | zero => intro k n _; simp [digitCount]
  | succ fuel ih =>
    intro k n hn
    unfold digitCount
    by_cases h0 : n = 0
    · simp [h0]
    · rw [if_neg h0]
      obtain ⟨k', rfl⟩ : ∃ j, k = j + 1 := by
        refine ⟨k - 1, ?_⟩
        rcases Nat.eq_zero_or_pos k with rfl | hk
        · simp at hn; omega
        · omega
      have hdiv : n / 10 < 10 ^ k' := by
        rw [Nat.div_lt_iff_lt_mul (by norm_num)]
        calc n < 10 ^ (k' + 1) := hn
          _ = 10 ^ k' * 10 := by ring
      have := ih k' (n / 10) hdiv
      omega

/-- C1.  The claim says a declined confirmation prompt aborts `create` with a
non-zero exit and no transaction submission.  The code calls `typer.confirm`
without `abort=True` and discards its Bool result, so on the failing input —
user answers no (`false`) — `create` still builds all four operations and
submits them: the source contradicts the evident intent of its own
confirmation prompt. -/
theorem create_submits_despite_declined_prompt :
    create "Prime Machin x Arttoo" none 1 1753660800000 1000000000 0 0
        1700000000000 "0xseller" false =
      Except.ok ⟨[Op.moveCall "0x1::option::none" [] ["0x1::string::String"],
        Op.moveCall (PACKAGE_ID ++ "::auction::new")
          [Arg.suiString "Prime Machin x Arttoo", Arg.result 0, Arg.suiU64 1,
           Arg.suiU64 1753660800000, Arg.suiU64 1000000000, Arg.suiU64 0, Arg.suiU64 0] [],
        Op.moveCall "0x2::transfer::public_share_object" [Arg.nestedResult 1 0]
          [PACKAGE_ID ++ "::auction::Auction"],
        Op.transferObjects [Arg.nestedResult 1 1] "0xseller"], 1000000000⟩ := by
  rfl

/-- C2 counterexample.  The claim says `bid` rejects every amount `≤ 0`
locally, before building a transaction.  At amount `0` the command instead
builds the full transaction (split of `0`, then the bid call) and submits it:
no local rejection happens. -/
theorem bid_amount_zero_builds_transaction :
    bid "0xauction" 0 =
      ⟨[Op.splitCoin [0],
        Op.moveCall (PACKAGE_ID ++ "::auction::bid")
          [Arg.objectID "0xauction", Arg.result 0, Arg.objectID "0x6"] []],
       1000000000⟩ := by
  rfl

/-- C2 amended.  The `bid` command does no local validation of the amount at
all: for every integer amount — positive, zero or negative — it builds the
transaction consisting of the coin split of exactly that amount followed by
the bid entry-point call, and submits it with gas budget `1_000_000_000`;
legality of the amount is left entirely to the remote contract. -/
theorem bid_no_local_amount_check (auction_id : String) (amount : Int) :
    bid auction_id amount =
      ⟨[Op.splitCoin [amount],
        Op.moveCall (PACKAGE_ID ++ "::auction::bid")
          [Arg.objectID auction_id, Arg.result 0, Arg.objectID "0x6"] []],
       1000000000⟩ := by
  rfl

/-- C3 counterexample.  The claim says every present description produces the
`some` variant carrying exactly that text.  A present but empty description
(`--description` set to the empty string) instead produces the `none` variant
call, which differs from the `some` variant carrying the empty text. -/
theorem create_present_empty_description_gives_none :
    Except.map (fun s => s.ops.head?)
        (create "n" (some "") 1 2 0 0 0 5 "0xme" true) =
      Except.ok (some (Op.moveCall "0x1::option::none" [] ["0x1::string::String"]))
    ∧ Op.moveCall "0x1::option::none" [] ["0x1::string::String"] ≠
      Op.moveCall "0x1::option::some" [Arg.suiString ""] ["0x1::string::String"] :=
  ⟨rfl, by decide⟩

/-- C3 amended.  For every `create` invocation that reaches transaction
construction: an absent or empty description makes the option-construction
call (the first operation of the transaction) use the `none` variant with no
arguments, and every present non-empty description makes it use the `some`
variant carrying exactly that text. -/
theorem create_description_option_variant (name : String) (description : Option String)
    (start_ts end_ts reserve_price starting_price min_bid_increment now_ms : Nat)
    (active_address : String) (confirmAnswer : Bool)
    (h : (if start_ts = 0 then now_ms else start_ts) ≤ end_ts) :
    ((description = none ∨ description = some "") →
      Except.map (fun s => s.ops.head?)
          (create name description start_ts end_ts reserve_price starting_price
            min_bid_increment now_ms active_address confirmAnswer) =
        Except.ok (some (Op.moveCall "0x1::option::none" [] ["0x1::string::String"])))
    ∧ (∀ t : String, description = some t → t ≠ "" →
      Except.map (fun s => s.ops.head?)
          (create name description start_ts end_ts reserve_price starting_price
            min_bid_increment now_ms active_address confirmAnswer) =
        Except.ok (some (Op.moveCall "0x1::option::some" [Arg.suiString t]
          ["0x1::string::String"]))) := by
  rw [create_ok_eq name description start_ts end_ts reserve_price starting_price
    min_bid_increment now_ms active_address confirmAnswer h]
  constructor
  · rintro (rfl | rfl) <;> rfl
  · rintro t rfl ht
    have hemp : t.isEmpty = false :=
      Bool.eq_false_iff.mpr (fun hh => ht ((String.isEmpty_iff t).mp hh))
    have hd : descTruthy (some t) = true := by simp [descTruthy, hemp]
    simp [Except.map, descOptionOp, hd, List.head?, Option.getD]

/-- C3 witness: the amended theorem applied at a concrete non-empty
description. -/
theorem create_description_option_variant_witness :
    Except.map (fun s => s.ops.head?)
        (create "n" (some "hello") 1 2 0 0 0 5 "0xme" true) =
      Except.ok (some (Op.moveCall "0x1::option::some" [Arg.suiString "hello"]
        ["0x1::string::String"])) :=
  (create_description_option_variant "n" (some "hello") 1 2 0 0 0 5 "0xme" true
    (by decide)).2 "hello" rfl (by decide)

/-- C4.  For every `create` invocation with `start_ts = 0`, the effective
start timestamp is the wall-clock time `now_ms` read at call time: the
ordering check is applied to the substituted value — the command fails with
the error message when `now_ms` exceeds `end_ts` — and otherwise the
substituted `now_ms` is exactly the start-timestamp argument of the
auction-construction call (operation 1 of the transaction). -/
theorem create_zero_start_uses_wall_clock (name : String) (description : Option String)
    (end_ts reserve_price starting_price min_bid_increment now_ms : Nat)
    (active_address : String) (confirmAnswer : Bool) :
    (end_ts < now_ms →
      create name description 0 end_ts reserve_price starting_price
          min_bid_increment now_ms active_address confirmAnswer =
        Except.error "Start timestamp must be before end timestamp.")
    ∧ (now_ms ≤ end_ts →
      Except.map (fun s => s.ops.get? 1)
          (create name description 0 end_ts reserve_price starting_price
            min_bid_increment now_ms active_address confirmAnswer) =
        Except.ok (some (Op.moveCall (PACKAGE_ID ++ "::auction::new")
          [Arg.suiString name, Arg.result 0, Arg.suiU64 now_ms, Arg.suiU64 end_ts,
           Arg.suiU64 reserve_price, Arg.suiU64 starting_price,
           Arg.suiU64 min_bid_increment] []))) := by
  constructor
  · intro hlt
    exact create_error_eq name description 0 end_ts reserve_price starting_price
      min_bid_increment now_ms active_address confirmAnswer (by simpa using hlt)
  · intro hle
    rw [create_ok_eq name description 0 end_ts reserve_price starting_price
      min_bid_increment now_ms active_address confirmAnswer (by simpa using hle)]
    rfl

/-- C4 witness: both branches of the theorem at concrete inputs — wall clock
`5` past an end timestamp of `1` fails, and wall clock `5` before an end
timestamp of `9` puts `5` into the auction-construction call. -/
theorem create_zero_start_uses_wall_clock_witness :
    (create "n" none 0 1 0 0 0 5 "0xme" true =
      Except.error "Start timestamp must be before end timestamp.")
    ∧ (Except.map (fun s => s.ops.get? 1) (create "n" none 0 9 0 0 0 5 "0xme" true) =
      Except.ok (some (Op.moveCall (PACKAGE_ID ++ "::auction::new")
        [Arg.suiString "n", Arg.result 0, Arg.suiU64 5, Arg.suiU64 9,
         Arg.suiU64 0, Arg.suiU64 0, Arg.suiU64 0] []))) :=
  ⟨(create_zero_start_uses_wall_clock "n" none 1 0 0 0 5 "0xme" true).1 (by decide),
   (create_zero_start_uses_wall_clock "n" none 9 0 0 0 5 "0xme" true).2 (by decide)⟩

/-- C5.  For every `create` invocation whose effective (post-substitution)
start timestamp is strictly greater than `end_ts`, the command fails
immediately with the user-facing message and a non-zero exit: the result is
the error, so no transaction is built and no network call is made. -/
theorem create_bad_ordering_fails_fast (name : String) (description : Option String)
    (start_ts end_ts reserve_price starting_price min_bid_increment now_ms : Nat)
    (active_address : String) (confirmAnswer : Bool)
    (h : end_ts < (if start_ts = 0 then now_ms else start_ts)) :
    create name description start_ts end_ts reserve_price starting_price
        min_bid_increment now_ms active_address confirmAnswer =
      Except.error "Start timestamp must be before end timestamp." :=
  create_error_eq name description start_ts end_ts reserve_price starting_price
    min_bid_increment now_ms active_address confirmAnswer h

/-- C5 witness: concrete invocation with start timestamp 5 after end
timestamp 2. -/
theorem create_bad_ordering_fails_fast_witness :
    2 < 5 ∧ create "n" none 5 2 0 0 0 9 "0xme" true =
      Except.error "Start timestamp must be before end timestamp." :=
  ⟨by decide, create_bad_ordering_fails_fast "n" none 5 2 0 0 0 9 "0xme" true (by decide)⟩

/-- C6.  For every bid amount greater than zero, the transaction built by
`bid` is exactly the coin split of that amount followed by the bid entry-point
call; in particular it contains exactly one coin-split operation and exactly
one call whose target is the bid entry point, the split precedes the call, and
the arguments of the call are the auction identifier, the split payment
(result of operation 0) and the fixed clock object `0x6`, in that order. -/
theorem bid_transaction_shape (auction_id : String) (amount : Int) (_h : 0 < amount) :
    (bid auction_id amount).ops =
      [Op.splitCoin [amount],
       Op.moveCall (PACKAGE_ID ++ "::auction::bid")
         [Arg.objectID auction_id, Arg.result 0, Arg.objectID "0x6"] []]
    ∧ ((bid auction_id amount).ops.countP
        (fun op => match op with | Op.splitCoin _ => true | _ => false)) = 1
    ∧ ((bid auction_id amount).ops.countP
        (fun op => match op with
          | Op.moveCall t _ _ => t == PACKAGE_ID ++ "::auction::bid"
          | _ => false)) = 1 :=
  ⟨rfl, rfl, rfl⟩

/-- C6 witness: the theorem at auction id `0xa` and amount `5`. -/
theorem bid_transaction_shape_witness :
    (0 : Int) < 5 ∧
    ((bid "0xa" 5).ops =
      [Op.splitCoin [5],
       Op.moveCall (PACKAGE_ID ++ "::auction::bid")
         [Arg.objectID "0xa", Arg.result 0, Arg.objectID "0x6"] []]
    ∧ ((bid "0xa" 5).ops.countP
        (fun op => match op with | Op.splitCoin _ => true | _ => false)) = 1
    ∧ ((bid "0xa" 5).ops.countP
        (fun op => match op with
          | Op.moveCall t _ _ => t == PACKAGE_ID ++ "::auction::bid"
          | _ => false)) = 1) :=
  ⟨by decide, bid_transaction_shape "0xa" 5 (by decide)⟩

/-- C7.  For every confirmed `create` invocation that passes the timestamp
check, the transaction contains, in order: the description-option
construction, the auction-construction call receiving all seven parameters,
the public-share call on the resulting auction object, and the transfer of
the capability object to the active address of the caller; it is submitted
with gas budget `1_000_000_000`. -/
theorem create_confirmed_transaction_shape (name : String) (description : Option String)
    (start_ts end_ts reserve_price starting_price min_bid_increment now_ms : Nat)
    (active_address : String) (confirmAnswer : Bool)
    (_hc : confirmAnswer = true)
    (h : (if start_ts = 0 then now_ms else start_ts) ≤ end_ts) :
    create name description start_ts end_ts reserve_price starting_price
        min_bid_increment now_ms active_address confirmAnswer =
      Except.ok ⟨[descOptionOp description,
        Op.moveCall (PACKAGE_ID ++ "::auction::new")
          [Arg.suiString name, Arg.result 0,
           Arg.suiU64 (if start_ts = 0 then now_ms else start_ts), Arg.suiU64 end_ts,
           Arg.suiU64 reserve_price, Arg.suiU64 starting_price,
           Arg.suiU64 min_bid_increment] [],
        Op.moveCall "0x2::transfer::public_share_object" [Arg.nestedResult 1 0]
          [PACKAGE_ID ++ "::auction::Auction"],
        Op.transferObjects [Arg.nestedResult 1 1] active_address], 1000000000⟩ :=
  create_ok_eq name description start_ts end_ts reserve_price starting_price
    min_bid_increment now_ms active_address confirmAnswer h

/-- C7 witness: the theorem at a concrete confirmed invocation. -/
theorem create_confirmed_transaction_shape_witness :
    create "n" none 1 2 0 0 0 5 "0xme" true =
      Except.ok ⟨[descOptionOp none,
        Op.moveCall (PACKAGE_ID ++ "::auction::new")
          [Arg.suiString "n", Arg.result 0,
           Arg.suiU64 (if 1 = 0 then 5 else 1), Arg.suiU64 2,
           Arg.suiU64 0, Arg.suiU64 0, Arg.suiU64 0] [],
        Op.moveCall "0x2::transfer::public_share_object" [Arg.nestedResult 1 0]
          [PACKAGE_ID ++ "::auction::Auction"],
        Op.transferObjects [Arg.nestedResult 1 1] "0xme"], 1000000000⟩ :=
  create_confirmed_transaction_shape "n" none 1 2 0 0 0 5 "0xme" true rfl (by decide)

/-- C8 counterexample.  The claim says the displayed reserve price is the
exact rational `reserve_price / 10 ^ 9` for every unsigned integer.  The
default decimal context carries only 28 significant digits, so at
`reserve_price = 10 ^ 28 + 1` the quotient is rounded (half-even) and the
displayed value differs from the exact rational. -/
theorem reserve_display_rounding_loss :
    reserveDisplaySui (10 ^ 28 + 1) ≠ (((10 ^ 28 + 1 : Nat) : ℚ)) / 10 ^ 9 := by
  have hsd : sigDigits (10 ^ 28 + 1) = 29 := by rfl
  have hr : roundHalfEven (10 ^ 28 + 1) (10 ^ (29 - decimalContextPrec)) = 10 ^ 27 := by
    unfold roundHalfEven decimalContextPrec
    norm_num
  unfold reserveDisplaySui
  rw [hsd, hr]
  rw [if_neg (by norm_num [decimalContextPrec])]
  norm_num [decimalContextPrec]

/-- C8 amended.  For every `reserve_price` with at most 28 significant decimal
digits — in particular every 64-bit value, so every value the chain accepts —
the displayed reserve price is exactly the rational
`reserve_price / 1_000_000_000`, with no rounding loss; beyond 28 digits the
default decimal context rounds. -/
theorem reserve_display_exact (reserve_price : Nat) (h : reserve_price < 10 ^ 28) :
    reserveDisplaySui reserve_price = (reserve_price : ℚ) / 10 ^ 9 := by
  have hd : sigDigits reserve_price ≤ decimalContextPrec := by
    unfold sigDigits decimalContextPrec
    have := digitCount_le reserve_price 28 reserve_price h
    omega
  unfold reserveDisplaySui
  rw [if_pos hd]

/-- C8 witness: the amended theorem at `reserve_price = 1_500_000_000`
(displayed as exactly 1.5 SUI). -/
theorem reserve_display_exact_witness :
    1500000000 < 10 ^ 28 ∧
    reserveDisplaySui 1500000000 = (1500000000 : ℚ) / 10 ^ 9 :=
  ⟨by norm_num, reserve_display_exact 1500000000 (by norm_num)⟩

/-- C9.  Both commands submit with the same fixed gas budget: every `bid`
submission carries gas budget `1_000_000_000`, and every `create` invocation
that reaches submission carries gas budget `1_000_000_000`. -/
theorem fixed_gas_budget :
    (∀ (auction_id : String) (amount : Int),
      (bid auction_id amount).gasBudget = 1000000000)
    ∧ (∀ (name : String) (description : Option String)
        (start_ts end_ts reserve_price starting_price min_bid_increment now_ms : Nat)
        (active_address : String) (confirmAnswer : Bool) (s : Submission),
      create name description start_ts end_ts reserve_price starting_price
          min_bid_increment now_ms active_address confirmAnswer = Except.ok s →
      s.gasBudget = 1000000000) := by
  refine ⟨fun _ _ => rfl, ?_⟩
  intro name description start_ts end_ts reserve_price starting_price
    min_bid_increment now_ms active_address confirmAnswer s hok
  by_cases h : (if start_ts = 0 then now_ms else start_ts) ≤ end_ts
  · rw [create_ok_eq name description start_ts end_ts reserve_price starting_price
      min_bid_increment now_ms active_address confirmAnswer h] at hok
    cases hok
    rfl
  · rw [create_error_eq name description start_ts end_ts reserve_price starting_price
      min_bid_increment now_ms active_address confirmAnswer (not_le.mp h)] at hok
    exact absurd hok (by simp)

/-- C9 witness: the bid branch at a concrete bid, and the create branch at a
concrete submitted invocation. -/
theorem fixed_gas_budget_witness :
    (bid "0xa" 7).gasBudget = 1000000000 ∧
    (Submission.mk [descOptionOp none,
        Op.moveCall (PACKAGE_ID ++ "::auction::new")
          [Arg.suiString "n", Arg.result 0, Arg.suiU64 1, Arg.suiU64 2,
           Arg.suiU64 0, Arg.suiU64 0, Arg.suiU64 0] [],
        Op.moveCall "0x2::transfer::public_share_object" [Arg.nestedResult 1 0]
          [PACKAGE_ID ++ "::auction::Auction"],
        Op.transferObjects [Arg.nestedResult 1 1] "0xme"] 1000000000).gasBudget
      = 1000000000 :=
  ⟨fixed_gas_budget.1 "0xa" 7,
   fixed_gas_budget.2 "n" none 1 2 0 0 0 5 "0xme" true _ (by rfl)⟩

/-- C10.  A `create` invocation whose description is the empty string is
treated as absent: the presence test is string truthiness, so the
option-construction call (the first operation of the transaction) uses the
`none` variant with no arguments, not a `some` variant carrying the empty
text. -/
theorem create_empty_description_as_absent (name : String)
    (start_ts end_ts reserve_price starting_price min_bid_increment now_ms : Nat)
    (active_address : String) (confirmAnswer : Bool)
    (h : (if start_ts = 0 then now_ms else start_ts) ≤ end_ts) :
    Except.map (fun s => s.ops.head?)
        (create name (some "") start_ts end_ts reserve_price starting_price
          min_bid_increment now_ms active_address confirmAnswer) =
      Except.ok (some (Op.moveCall "0x1::option::none" [] ["0x1::string::String"])) := by
  rw [create_ok_eq name (some "") start_ts end_ts reserve_price starting_price
    min_bid_increment now_ms active_address confirmAnswer h]
  rfl

/-- C10 witness: the theorem at a concrete invocation with an empty-string
description. -/
theorem create_empty_description_as_absent_witness :
    Except.map (fun s => s.ops.head?)
        (create "n" (some "") 1 2 0 0 0 5 "0xme" true) =
      Except.ok (some (Op.moveCall "0x1::option::none" [] ["0x1::string::String"])) :=
  create_empty_description_as_absent "n" 1 2 0 0 0 5 "0xme" true (by decide)
